import Mathlib

/-!
Verification of the spreadsheet structural-inference engine
(`spreadsheet_agent.py` and `spreadsheet_agent_schemas.py`).

The pipeline is shallowly embedded: a sheet is a `Df` (a row count plus a
list of named, dtyped columns of dynamic cells), and each stage of
`SpreadsheetAgent.process_spreadsheet` is a Lean function translated from the
corresponding Python method.  Library behaviour that the code leans on is
made explicit:

* `pandas` missing values (`NaN`) are the `Cell.null` constructor; a column's
  pandas dtype is carried in `Col.dtype` (pandas dtypes are per column, not
  per cell).
* `Series.astype(str)` renders a missing value as the text "nan", so after
  the conversion no entry of the series is missing (`strNotnull`).
* `Series.notnull().mean()` over an empty series is `NaN`, and `NaN > 0.4`
  is false; this is modelled by `nonNullMean` returning `Option` with `none`
  compared as false (`optGtQ`).
* `pd.to_datetime(x, format=f, errors='raise')` succeeding is an abstract
  oracle `parses : String → String → Bool`, and the wholesale
  `pd.to_datetime(column, errors='coerce', dayfirst=True)` coercion is an
  abstract oracle `toDT : Cell → Cell`; none of the verified properties
  depend on how the actual parser behaves, so theorems quantify over these
  oracles.
* `list(set(xs))` materialises a Python set in an unspecified,
  hash-seed-dependent order; it is modelled by an order oracle
  `ord : List String → List String` constrained by `admissibleOrd` (the
  result is duplicate-free and has exactly the set's members).
* the `pydantic` models of `spreadsheet_agent_schemas.py` ignore unknown
  keyword arguments (the default `extra='ignore'` behaviour), so
  `mkSheetInfo` and `mkSpreadsheetProcessingResponse` take every argument
  the call sites in `spreadsheet_agent.py` pass and keep only the fields the
  schemas declare.
-/

namespace SpreadsheetAgent

/-- Dynamic cell of a sheet: numeric, text, datetime, or missing (`NaN`). -/
inductive Cell where
  | num (q : ℚ)
  | str (s : String)
  | date (t : Int)
  | null
deriving DecidableEq, Repr

/-- Pandas `isnull` on one cell: only a missing value is null. -/
def Cell.isNull : Cell → Bool
  | .null => true
  | _ => false

/-- Pandas column dtypes that matter to the code. -/
inductive Dtype where
  | int
  | float
  | bool
  | datetime
  | object
deriving DecidableEq, Repr

/-- Pandas `api.types.is_numeric_dtype`: integer, float and boolean dtypes are
numeric; datetime and object dtypes are not. -/
def Dtype.isNumeric : Dtype → Bool
  | .int => true
  | .float => true
  | .bool => true
  | _ => false

/-- Branch order of `_infer_data_types` for a non-date column:
datetime, integer, float, boolean, default string. -/
def Dtype.typeName : Dtype → String
  | .datetime => "datetime"
  | .int => "integer"
  | .float => "float"
  | .bool => "boolean"
  | .object => "string"

/-- Python `str()` of one cell, as `Series.astype(str)` applies it.  A missing
value renders as the literal text "nan" (`str(float('nan'))`).  The rendering
of numbers and datetimes is abstracted; no verified property depends on it. -/
def Cell.toStr : Cell → String
  | .num q => if q.den = 1 then toString q.num else toString q
  | .str s => s
  | .date t => toString t
  | .null => "nan"

/-- One named column: its label, its pandas dtype and its cells. -/
structure Col where
  name : String
  dtype : Dtype
  cells : List Cell
deriving DecidableEq, Repr

/-- One sheet as `pd.read_excel` yields it: `nrows` is `len(df)` (the length
of the row index, which survives even if every column is dropped). -/
structure Df where
  nrows : Nat
  cols : List Col
deriving DecidableEq, Repr

/-- Well-formedness pandas guarantees: every column has `len(df)` cells. -/
def Df.wf (df : Df) : Prop := ∀ c ∈ df.cols, c.cells.length = df.nrows

/-- Python `str.strip` on the character list: drop leading and trailing
whitespace. -/
def stripChars (l : List Char) : List Char :=
  ((l.dropWhile Char.isWhitespace).reverse.dropWhile Char.isWhitespace).reverse

/-- Python `str.strip`. -/
def pyStrip (s : String) : String := ⟨stripChars s.data⟩

/-- Python `str.lower` (kernel-computable, over the character list). -/
def pyToLower (s : String) : String := ⟨s.data.map Char.toLower⟩

/-- Python `str.startswith`, the anchored match of the regex `^Unnamed`
(kernel-computable, over the character list). -/
def pyStartsWith (s pre : String) : Bool := pre.data.isPrefixOf s.data

/-- Lines 84 and 87 of `spreadsheet_agent.py`: strip every column label
(`df.columns.astype(str).str.strip()`), then drop the columns whose stripped
label matches the regex `^Unnamed`
(`df.loc[:, ~df.columns.str.contains('^Unnamed')]`).  Dropping columns keeps
the row index, so `nrows` is unchanged. -/
def sanitizeColumns (df : Df) : Df :=
  { nrows := df.nrows,
    cols := (df.cols.map (fun c => { c with name := pyStrip c.name })).filter
      (fun c => !(pyStartsWith c.name "Unnamed")) }

/-- The `known_formats` list of `_detect_date_columns`, verbatim (including
the repeated "%b-%y"). -/
def knownFormats : List String :=
  ["%d/%m/%Y", "%Y-%m-%d %H:%M:%S", "%Y-%m-%d", "%B %Y", "%b-%y",
   "%m/%Y", "%Y%m", "%d-%m-%Y", "%m-%d-%Y", "%b-%y", "%b-%Y",
   "%Y-%b", "%b/%y", "%b/%Y"]

/-- The label names matched case-insensitively at line 201. -/
def dateWordNames : List String := ["date", "year", "month"]

/-- `df[col].dropna().astype(str).head(10)`: the first ten non-null values of
the column, as text. -/
def sampleStrings (c : Col) : List String :=
  ((c.cells.filter (fun x => !x.isNull)).map Cell.toStr).take 10

/-- One iteration of the column loop of `_detect_date_columns` (lines
189-216): the names this column appends to `date_columns` and the formats it
adds to `date_formats`, in order.  Path (a) tries the label against each
known format and breaks at the first success; path (b) appends again when the
lowercased label is `date`, `year` or `month` and `continue`s; otherwise path
(c) tries the sample of up to ten values against each format (an empty sample
parses trivially, as `pd.to_datetime` of an empty series raises nothing). -/
def detectRawCol (parses : String → String → Bool) (c : Col) :
    List String × List String :=
  let aHit := knownFormats.find? (fun f => parses c.name f)
  let dcs1 : List String := match aHit with | some _ => [c.name] | none => []
  let fs1 : List String := match aHit with | some f => [f] | none => []
  if pyToLower c.name ∈ dateWordNames then
    (dcs1 ++ [c.name], fs1)
  else
    let cHit := knownFormats.find? (fun f => (sampleStrings c).all (fun v => parses v f))
    (dcs1 ++ (match cHit with | some _ => [c.name] | none => []),
     fs1 ++ (match cHit with | some f => [f] | none => []))

/-- The raw `date_columns` list and `date_formats` contents accumulated over
all columns, before the `list(set(...))` materialisation. -/
def detectRaw (parses : String → String → Bool) (df : Df) :
    List String × List String :=
  df.cols.foldl
    (fun acc c =>
      let r := detectRawCol parses c
      (acc.1 ++ r.1, acc.2 ++ r.2))
    ([], [])

/-- An admissible materialisation order for `list(set(xs))`: the result is
duplicate-free and holds exactly the members of `xs`.  CPython's order
depends on the process hash seed, so it is a parameter, not a constant. -/
def admissibleOrd (ord : List String → List String) : Prop :=
  ∀ xs : List String, (ord xs).Nodup ∧ ∀ a : String, a ∈ ord xs ↔ a ∈ xs

/-- First-occurrence deduplication: one admissible order. -/
def dedupOrd : List String → List String := fun xs => xs.dedup

/-- Reversed first-occurrence deduplication: another admissible order. -/
def revDedupOrd : List String → List String := fun xs => xs.dedup.reverse

/-- `_detect_date_columns` (lines 179-220): accumulate raw hits, then return
`list(set(date_columns))` and `list(date_formats)`. -/
def detectDateColumns (parses : String → String → Bool)
    (ord : List String → List String) (df : Df) : List String × List String :=
  let r := detectRaw parses df
  (ord r.1, ord r.2)

/-- `_infer_data_types` (lines 222-247).  It mutates the frame: each date
column is wholesale-coerced with `pd.to_datetime(..., errors='coerce',
dayfirst=True)` (the oracle `toDT`, applied cellwise, dtype becomes
datetime64) and typed "datetime"; every other column is typed from its
dtype.  Returns the mutated frame and the type map. -/
def inferDataTypes (toDT : Cell → Cell) (df : Df) (dateCols : List String) :
    Df × List (String × String) :=
  ({ nrows := df.nrows,
     cols := df.cols.map (fun c =>
       if c.name ∈ dateCols then
         { name := c.name, dtype := Dtype.datetime, cells := c.cells.map toDT }
       else c) },
   df.cols.map (fun c =>
     (c.name, if c.name ∈ dateCols then "datetime" else c.dtype.typeName)))

/-- Line 145: `df.isnull().sum().to_dict()`, per column. -/
def nullCountsOf (df : Df) : List (String × Nat) :=
  df.cols.map (fun c => (c.name, c.cells.countP Cell.isNull))

/-- `len(df[col].dropna().unique())`: count of distinct non-null values. -/
def distinctNonNullCount (c : Col) : Nat :=
  ((c.cells.filter (fun x => !x.isNull)).dedup).length

/-- Count of non-null cells of a column. -/
def nonNullCount (c : Col) : Nat := c.cells.countP (fun x => !x.isNull)

/-- Line 255: `len(unique_values) / total_rows if total_rows > 0 else 0`. -/
def uniquenessRatio (df : Df) (c : Col) : ℚ :=
  if 0 < df.nrows then mkRat (distinctNonNullCount c) df.nrows else 0

/-- Line 256: `df[col].notnull().mean()`.  The mean of an empty boolean
series is `NaN`, modelled as `none`. -/
def nonNullMean (df : Df) (c : Col) : Option ℚ :=
  if 0 < df.nrows then some (mkRat (nonNullCount c) df.nrows) else none

/-- A float comparison `x > t` where `x` may be `NaN`: `NaN > t` is false. -/
def optGtQ : Option ℚ → ℚ → Bool
  | some v, t => decide (t < v)
  | none, _ => false

/-- The guard of line 258: `non_null_ratio > 0.4 and uniqueness_ratio < 0.9`,
with no condition on the dtype. -/
def isIdentifierCol (df : Df) (c : Col) : Bool :=
  optGtQ (nonNullMean df c) (mkRat 2 5) && decide (uniquenessRatio df c < mkRat 9 10)

/-- `_identify_identifier_columns` (lines 249-261). -/
def identifyIdentifierColumns (df : Df) : List String :=
  df.cols.filterMap (fun c => if isIdentifierCol df c then some c.name else none)

/-- `_identify_description_columns` (lines 263-272): among columns not in
`exclude_columns`, those with non-null ratio above 0.4. -/
def identifyDescriptionColumns (df : Df) (excl : List String) : List String :=
  df.cols.filterMap (fun c =>
    if c.name ∈ excl then none
    else if optGtQ (nonNullMean df c) (mkRat 2 5) then some c.name else none)

/-- `_identify_metric_columns` (lines 274-281): among columns not in
`exclude_columns`, those of numeric dtype. -/
def identifyMetricColumns (df : Df) (excl : List String) : List String :=
  df.cols.filterMap (fun c =>
    if c.name ∈ excl then none
    else if c.dtype.isNumeric then some c.name else none)

/-- `df[name]`: pandas label indexing (labels are unique in a read frame;
the first column of that name is taken). Missing label yields no cells. -/
def colCells (df : Df) (name : String) : List Cell :=
  ((df.cols.find? (fun c => c.name = name)).map Col.cells).getD []

/-- `df[name].astype(str)`. -/
def seriesStr (df : Df) (name : String) : List String :=
  (colCells df name).map Cell.toStr

/-- Pandas `notnull` on an entry of a series of Python `str` objects: a
`str` is never `NaN`/`None`, so this is constantly true. -/
def strNotnull (_ : String) : Bool := true

/-- Line 306: `combined_non_null.sum()`, the count of rows where both text
series are non-null. -/
def combinedNonNullCount (xs ys : List String) : Nat :=
  (xs.zip ys).countP (fun p => strNotnull p.1 && strNotnull p.2)

/-- Line 310: `zip(id_series[combined_non_null], desc_series[combined_non_null])`,
the row pairs selected by the mask. -/
def maskedRows (xs ys : List String) : List (String × String) :=
  (xs.zip ys).filter (fun p => strNotnull p.1 && strNotnull p.2)

/-- Python `dict` insertion: update the value in place if the key exists,
else append. -/
def dinsert : List (String × String) → String → String → List (String × String)
  | [], k, v => [(k, v)]
  | (k1, v1) :: rest, k, v =>
    if k1 = k then (k, v) :: rest else (k1, v1) :: dinsert rest k v

/-- The guard of line 313 on the stripped strings: both truthy (non-empty)
and neither equal, lowercased, to the literal "nan". -/
def rowOk (i d : String) : Bool :=
  !(i = "") && !(d = "") && !(pyToLower i = "nan") && !(pyToLower d = "nan")

/-- Lines 310-314: fold the selected rows into the `metrics` dict, stripping
both sides and inserting the rows that pass `rowOk`. -/
def buildRows (acc : List (String × String)) (rows : List (String × String)) :
    List (String × String) :=
  rows.foldl
    (fun m r =>
      let i := pyStrip r.1
      let d := pyStrip r.2
      if rowOk i d then dinsert m i d else m)
    acc

/-- The pair-trial loop of `_extract_metrics` (lines 302-318): skip a pair
with no overlapping data, otherwise extend the shared `metrics` dict from the
pair's rows and return it as soon as it is non-empty. -/
def tryPairs (df : Df) (acc : List (String × String)) :
    List (String × String) → List (String × String)
  | [] => acc
  | p :: rest =>
    let xs := seriesStr df p.1
    let ys := seriesStr df p.2
    if combinedNonNullCount xs ys = 0 then tryPairs df acc rest
    else
      let m := buildRows acc (maskedRows xs ys)
      if m = [] then tryPairs df m rest else m

/-- Lines 291-295: the positional fallback pair, present whenever the frame
has at least two columns, regardless of classified roles. -/
def positionalPair (df : Df) : List (String × String) :=
  match df.cols with
  | c0 :: c1 :: _ => [(c0.name, c1.name)]
  | _ => []

/-- Lines 291-300: `columns_to_try` — the positional fallback first, then
every (identifier, description) pair, identifiers in the outer loop. -/
def columnsToTry (df : Df) (idCols descCols : List String) :
    List (String × String) :=
  positionalPair df ++ idCols.flatMap (fun i => descCols.map (fun d => (i, d)))

/-- `_extract_metrics` (lines 283-318). -/
def extractMetrics (df : Df) (idCols descCols : List String) :
    List (String × String) :=
  tryPairs df [] (columnsToTry df idCols descCols)

/-- Modelled from the spec's words for comparison with `extractMetrics`:
the mapping one candidate pair alone yields. -/
def pairMapping (df : Df) (p : String × String) : List (String × String) :=
  buildRows [] (maskedRows (seriesStr df p.1) (seriesStr df p.2))

/-- Modelled from the spec's words for comparison with `extractMetrics`:
return the first candidate pair's own mapping that is non-empty, never
considering later pairs; empty if no pair yields anything. -/
def firstNonEmptyMapping (df : Df) : List (String × String) → List (String × String)
  | [] => []
  | p :: rest =>
    if pairMapping df p = [] then firstNonEmptyMapping df rest
    else pairMapping df p

/-- The external library behaviours a run of the pipeline is parametrised
by: the strptime-style parse oracle, the datetime coercion oracle, and the
Python set materialisation order. -/
structure Oracles where
  parses : String → String → Bool
  toDT : Cell → Cell
  ord : List String → List String

/-- The `SheetInfo` pydantic model of `spreadsheet_agent_schemas.py`
(lines 6-15): exactly the nine declared fields. -/
structure SheetInfo where
  name : String
  columns : List String
  row_count : Nat
  column_count : Nat
  data_types : List (String × String)
  has_headers : Bool
  date_columns : List String
  null_counts : List (String × Nat)
  date_formats : List String
deriving DecidableEq, Repr

/-- The `SheetInfo(...)` construction of lines 162-175 of
`spreadsheet_agent.py`.  The call site passes `identifier_columns`,
`description_columns` and `metric_columns`, but the schema declares no such
fields and pydantic ignores unknown keyword arguments (default
`extra='ignore'`), so the three role lists are dropped. -/
def mkSheetInfo (name : String) (columns : List String)
    (row_count column_count : Nat) (data_types : List (String × String))
    (has_headers : Bool) (date_columns : List String)
    (null_counts : List (String × Nat)) (date_formats : List String)
    (_identifier_columns _description_columns _metric_columns : List String) :
    SheetInfo :=
  { name := name, columns := columns, row_count := row_count,
    column_count := column_count, data_types := data_types,
    has_headers := has_headers, date_columns := date_columns,
    null_counts := null_counts, date_formats := date_formats }

/-- `_extract_sheet_metadata` (lines 133-177): the stages in source order.
Note that `_infer_data_types` mutates the frame before the null counts and
the role classification run, and that `row_count` is taken from the frame
(whose index length the mutation preserves). -/
def extractSheetMetadata (o : Oracles) (df : Df) (sheetName : String) :
    SheetInfo × List (String × String) :=
  let columns := df.cols.map Col.name
  let dd := detectDateColumns o.parses o.ord df
  let dateCols := dd.1
  let dateFmts := dd.2
  let inf := inferDataTypes o.toDT df dateCols
  let df2 := inf.1
  let types := inf.2
  let nulls := nullCountsOf df2
  let ids := identifyIdentifierColumns df2
  let descs := identifyDescriptionColumns df2 ids
  let mets := identifyMetricColumns df2 (ids ++ descs ++ dateCols)
  let metrics := extractMetrics df2 ids descs
  (mkSheetInfo sheetName columns df.nrows columns.length types true dateCols
    nulls dateFmts ids descs mets, metrics)

/-- A YAML-serialisable value, for the persisted config document. -/
inductive YVal where
  | s (v : String)
  | n (v : Int)
  | b (v : Bool)
  | list (vs : List YVal)
  | map (kvs : List (String × YVal))
deriving Repr

/-- `model_dump(exclude_unset=True)` of a `SheetInfo` (line 110).  Every one
of the nine schema fields is passed explicitly at the construction site, so
every one is set and all nine appear, in declaration order. -/
def SheetInfo.modelDump (si : SheetInfo) : List (String × YVal) :=
  [("name", YVal.s si.name),
   ("columns", YVal.list (si.columns.map YVal.s)),
   ("row_count", YVal.n si.row_count),
   ("column_count", YVal.n si.column_count),
   ("data_types", YVal.map (si.data_types.map (fun p => (p.1, YVal.s p.2)))),
   ("has_headers", YVal.b si.has_headers),
   ("date_columns", YVal.list (si.date_columns.map YVal.s)),
   ("null_counts", YVal.map (si.null_counts.map (fun p => (p.1, YVal.n p.2)))),
   ("date_formats", YVal.list (si.date_formats.map YVal.s))]

/-- The `SpreadsheetProcessingResponse` pydantic model of
`spreadsheet_agent_schemas.py` (lines 25-28): exactly the three declared
fields. -/
structure SpreadsheetProcessingResponse where
  sheets_metadata : List (String × SheetInfo)
  processed_data : List (String × YVal)
  file_path : String

/-- The `SpreadsheetProcessingResponse(...)` construction of lines 122-127.
The call site passes `config_path`, but the schema declares no such field
and pydantic ignores unknown keyword arguments, so the derived profile path
is dropped from the response. -/
def mkSpreadsheetProcessingResponse (sheets_metadata : List (String × SheetInfo))
    (processed_data : List (String × YVal)) (file_path : String)
    (_config_path : String) : SpreadsheetProcessingResponse :=
  { sheets_metadata := sheets_metadata, processed_data := processed_data,
    file_path := file_path }

/-- `pathlib.Path.with_suffix('.yaml')` for a flat file name: drop from the
last dot on (keep everything when there is no dot) and append ".yaml". -/
def withSuffixYaml (p : String) : String :=
  let dropped : List Char :=
    match p.data.reverse.dropWhile (fun c => c ≠ '.') with
    | [] => p.data
    | _ :: rest => rest.reverse
  String.mk dropped ++ ".yaml"

/-- What the filesystem holds at a path: nothing, an unreadable file (a
`pd.read_excel` failure), or a readable workbook of named sheets. -/
inductive FileState where
  | absent
  | unreadable
  | workbook (sheets : List (String × Df))

/-- The failures `process_spreadsheet` can raise: the explicit
`FileNotFoundError` of line 71, or the propagated read failure of line 74. -/
inductive PErr where
  | notFound (path : String)
  | readFailed (path : String)
deriving DecidableEq, Repr

/-- Line 102: the global date-format settings, `list()` of the set
accumulated by updating with every sheet's `date_formats` list. -/
def globalDateFormats (o : Oracles) (sheets : List (String × Df)) : List String :=
  o.ord ((sheets.map (fun s =>
    (extractSheetMetadata o (sanitizeColumns s.2) s.1).1.date_formats)).flatten)

/-- `process_spreadsheet` (lines 65-131) over an abstract filesystem.  A
missing path raises `FileNotFoundError` before anything else; a failing
`pd.read_excel` propagates; otherwise every sheet is sanitised and profiled,
the config document is assembled and written beside the source (the write is
the second component of the successful result — an exception aborts before
any write), and the in-memory response is returned. -/
def processSpreadsheet (o : Oracles) (fs : String → FileState) (p : String) :
    Except PErr (SpreadsheetProcessingResponse × (String × YVal)) :=
  match fs p with
  | .absent => .error (.notFound p)
  | .unreadable => .error (.readFailed p)
  | .workbook sheets =>
    let results := sheets.map (fun s =>
      (s.1, extractSheetMetadata o (sanitizeColumns s.2) s.1))
    let sheetsMetadata := results.map (fun r => (r.1, r.2.1))
    let metricsMapping := (results.filter (fun r => !r.2.2.isEmpty)).map
      (fun r => (r.1, r.2.2))
    let gdf := globalDateFormats o sheets
    let config : YVal := .map
      [("version", .s "1.0"),
       ("global", .map [("date_formats", .list (gdf.map YVal.s))]),
       ("sheets", .map (sheetsMetadata.map (fun r => (r.1, YVal.map r.2.modelDump)))),
       ("metrics_mapping", .map (metricsMapping.map (fun r =>
         (r.1, YVal.map (r.2.map (fun kv => (kv.1, YVal.s kv.2)))))))]
    let cfgPath := withSuffixYaml p
    .ok (mkSpreadsheetProcessingResponse sheetsMetadata [] p cfgPath,
      (cfgPath, config))

/-- Lookup in a YAML mapping value. -/
def YVal.getKey : YVal → String → Option YVal
  | .map kvs, k => (kvs.find? (fun kv => kv.1 = k)).map Prod.snd
  | _, _ => none

/-- The keys of a YAML mapping value. -/
def YVal.keys : YVal → Option (List String)
  | .map kvs => some (kvs.map Prod.fst)
  | _ => none

/-- The keys of one sheet's entry in the persisted config document of a
successful processing result. -/
def sheetEntryKeys
    (r : Except PErr (SpreadsheetProcessingResponse × (String × YVal)))
    (sheet : String) : Option (List String) :=
  match r with
  | .ok x =>
    match x.2.2.getKey "sheets" with
    | some sv =>
      match sv.getKey sheet with
      | some e => e.keys
      | none => none
    | none => none
  | .error _ => none

/-- `model_dump()` of the response (line 55): the three schema fields, in
declaration order. -/
def responseDump (resp : SpreadsheetProcessingResponse) : List (String × YVal) :=
  [("sheets_metadata", YVal.map (resp.sheets_metadata.map
      (fun r => (r.1, YVal.map r.2.modelDump)))),
   ("processed_data", YVal.map resp.processed_data),
   ("file_path", YVal.s resp.file_path)]

/-- The field names the in-memory result of a successful run exposes. -/
def respFieldNames
    (r : Except PErr (SpreadsheetProcessingResponse × (String × YVal))) :
    Option (List String) :=
  match r with
  | .ok x => some ((responseDump x.1).map Prod.fst)
  | .error _ => none

/-- The `file_path` field of a successful run's response. -/
def respFilePath
    (r : Except PErr (SpreadsheetProcessingResponse × (String × YVal))) :
    Option String :=
  match r with
  | .ok x => some x.1.file_path
  | .error _ => none

/-- The `date_columns` list of one sheet's profile in a successful run's
response. -/
def respDateColumns
    (r : Except PErr (SpreadsheetProcessingResponse × (String × YVal)))
    (sheet : String) : Option (List String) :=
  match r with
  | .ok x => (x.1.sheets_metadata.find? (fun e => e.1 = sheet)).map
      (fun e => e.2.date_columns)
  | .error _ => none

/-- A parse oracle under which nothing parses as a date. -/
def parsesNone : String → String → Bool := fun _ _ => false

/-- A parse oracle under which everything parses as a date. -/
def parsesAll : String → String → Bool := fun _ _ => true

/-- A two-column Code/Label sheet with two rows. -/
def dfCL : Df :=
  { nrows := 2,
    cols :=
      [{ name := "Code", dtype := Dtype.object,
         cells := [Cell.str "R001", Cell.str "R002"] },
       { name := "Label", dtype := Dtype.object,
         cells := [Cell.str "Revenue", Cell.str "Cost"] }] }

/-- A run with no date parsing and first-occurrence set order. -/
def oC : Oracles := { parses := parsesNone, toDT := id, ord := dedupOrd }

/-- A filesystem holding one workbook with the Code/Label sheet. -/
def fsCL : String → FileState := fun q =>
  if q = "book.xlsx" then FileState.workbook [("S", dfCL)] else FileState.absent

/-- A one-row sheet with two columns named `Date` and `Year`.  Both are
marked date-like by the label-name path alone (`'date'`/`'year'` after
lowercasing), which involves no parsing and `continue`s past the
value-sample check, so the raw date-column set has two elements whatever the
parser does: `parsesNone` agrees with the real `pd.to_datetime` on every
string this run queries (the labels `Date` and `Year` parse under none of
the fourteen known formats, and no cell value is ever tried). -/
def df4 : Df :=
  { nrows := 1,
    cols :=
      [{ name := "Date", dtype := Dtype.object, cells := [Cell.str "2024"] },
       { name := "Year", dtype := Dtype.object, cells := [Cell.str "2024"] }] }

/-- A run on `df4` where set order is first-occurrence order. -/
def oA : Oracles := { parses := parsesNone, toDT := id, ord := dedupOrd }

/-- The same run except that set order is reversed (a different hash seed). -/
def oB : Oracles := { parses := parsesNone, toDT := id, ord := revDedupOrd }

/-- A filesystem holding the two-date-column workbook everywhere. -/
def fs4 : String → FileState := fun _ => FileState.workbook [("S", df4)]

/-- A sheet whose single column is named `date` and also label-parses under
`parsesAll`: two detection paths mark it. -/
def df8 : Df :=
  { nrows := 1,
    cols := [{ name := "date", dtype := Dtype.object, cells := [Cell.str "x"] }] }

/-- A sheet with a repeated identifier value, so that the Code column has
non-null ratio 1 and uniqueness ratio 1/2 and classifies as identifier. -/
def dfW : Df :=
  { nrows := 2,
    cols :=
      [{ name := "Code", dtype := Dtype.object,
         cells := [Cell.str "R001", Cell.str "R001"] }] }

/-- A sheet carrying an `Unnamed: 3` placeholder column next to a padded
label, for exercising the sanitizer. -/
def df9 : Df :=
  { nrows := 2,
    cols :=
      [{ name := " Unnamed: 3 ", dtype := Dtype.object,
         cells := [Cell.null, Cell.null] },
       { name := "  X ", dtype := Dtype.int,
         cells := [Cell.num 1, Cell.num 2] }] }

/-- A filesystem with no file anywhere. -/
def fsEmpty : String → FileState := fun _ => FileState.absent

/-! ### Helper lemmas -/

theorem dropWhile_head_false {α : Type} (p : α → Bool) (l : List α) {a : α}
    {t : List α} (h : l.dropWhile p = a :: t) : p a = false := by
  induction l with
  | nil => simp [List.dropWhile] at h
  | cons x xs ih =>
    rw [List.dropWhile_cons] at h
    by_cases hx : p x = true
    · rw [if_pos hx] at h
      exact ih h
    · rw [if_neg hx] at h
      cases h
      exact Bool.eq_false_iff.mpr hx

theorem dropWhile_idem {α : Type} (p : α → Bool) (l : List α) :
    (l.dropWhile p).dropWhile p = l.dropWhile p := by
  cases h : l.dropWhile p with
  | nil => rfl
  | cons a t =>
    have ha := dropWhile_head_false p l h
    rw [List.dropWhile_cons, ha]
    simp

theorem trimRight_preserves_left {α : Type} (p : α → Bool) (m : List α)
    (hl : m.dropWhile p = m) :
    ((m.reverse.dropWhile p).reverse).dropWhile p =
      (m.reverse.dropWhile p).reverse := by
  have hmsplit : m =
      (m.reverse.dropWhile p).reverse ++ (m.reverse.takeWhile p).reverse := by
    have h1 := congrArg List.reverse (List.takeWhile_append_dropWhile p m.reverse)
    rw [List.reverse_append, List.reverse_reverse] at h1
    exact h1.symm
  cases hsc : (m.reverse.dropWhile p).reverse with
  | nil => rfl
  | cons b u =>
    have hmc : m.dropWhile p = b :: (u ++ (m.reverse.takeWhile p).reverse) := by
      rw [hl]
      conv_lhs => rw [hmsplit]
      rw [hsc]
      rfl
    have hb : p b = false := dropWhile_head_false p m hmc
    rw [List.dropWhile_cons, hb]
    simp

theorem stripChars_idem (l : List Char) :
    stripChars (stripChars l) = stripChars l := by
  unfold stripChars
  rw [trimRight_preserves_left Char.isWhitespace (l.dropWhile Char.isWhitespace)
    (dropWhile_idem Char.isWhitespace l)]
  rw [List.reverse_reverse, dropWhile_idem]

theorem pyStrip_idem (s : String) : pyStrip (pyStrip s) = pyStrip s := by
  show String.mk (stripChars (String.mk (stripChars s.data)).data) = pyStrip s
  rw [show (String.mk (stripChars s.data)).data = stripChars s.data from rfl,
    stripChars_idem]
  rfl

theorem dedupOrdAdmissible : admissibleOrd dedupOrd :=
  fun xs => ⟨List.nodup_dedup xs, fun _ => List.mem_dedup⟩

theorem revDedupOrdAdmissible : admissibleOrd revDedupOrd :=
  fun xs =>
    ⟨List.nodup_reverse.mpr (List.nodup_dedup xs),
     fun a => by rw [revDedupOrd, List.mem_reverse, List.mem_dedup]⟩

theorem combinedNonNullCount_eq_length (xs ys : List String) :
    combinedNonNullCount xs ys = (xs.zip ys).length := by
  unfold combinedNonNullCount strNotnull
  simp

theorem maskedRows_eq_zip (xs ys : List String) :
    maskedRows xs ys = xs.zip ys := by
  unfold maskedRows strNotnull
  simp

theorem pairMapping_of_count_zero {df : Df} {p : String × String}
    (h : combinedNonNullCount (seriesStr df p.1) (seriesStr df p.2) = 0) :
    pairMapping df p = [] := by
  rw [combinedNonNullCount_eq_length, List.length_eq_zero] at h
  unfold pairMapping
  rw [maskedRows_eq_zip, h]
  rfl

theorem tryPairs_nil_eq (df : Df) :
    ∀ l : List (String × String), tryPairs df [] l = firstNonEmptyMapping df l := by
  intro l
  induction l with
  | nil => rfl
  | cons p rest ih =>
    show (if combinedNonNullCount (seriesStr df p.1) (seriesStr df p.2) = 0 then
        tryPairs df [] rest
      else
        let m := buildRows [] (maskedRows (seriesStr df p.1) (seriesStr df p.2))
        if m = [] then tryPairs df m rest else m) = _
    rw [show firstNonEmptyMapping df (p :: rest) =
      (if pairMapping df p = [] then firstNonEmptyMapping df rest
        else pairMapping df p) from rfl]
    by_cases h : combinedNonNullCount (seriesStr df p.1) (seriesStr df p.2) = 0
    · rw [if_pos h, ih, if_pos (pairMapping_of_count_zero h)]
    · rw [if_neg h]
      show (if pairMapping df p = [] then tryPairs df (pairMapping df p) rest
        else pairMapping df p) = _
      by_cases h2 : pairMapping df p = []
      · rw [if_pos h2, if_pos h2, h2, ih]
      · rw [if_neg h2, if_neg h2]

theorem mem_identifyIdentifier {df : Df} {x : String}
    (h : x ∈ identifyIdentifierColumns df) :
    ∃ c ∈ df.cols, c.name = x ∧ isIdentifierCol df c = true := by
  rcases List.mem_filterMap.mp h with ⟨c, hc, he⟩
  by_cases hb : isIdentifierCol df c = true
  · rw [if_pos hb] at he
    exact ⟨c, hc, Option.some.inj he, hb⟩
  · rw [if_neg hb] at he
    cases he

theorem mem_identifyIdentifier_name {df : Df} {x : String}
    (h : x ∈ identifyIdentifierColumns df) : x ∈ df.cols.map Col.name := by
  rcases mem_identifyIdentifier h with ⟨c, hc, hn, _⟩
  exact List.mem_map.mpr ⟨c, hc, hn⟩

theorem mem_identifyDescription_not_excl {df : Df} {excl : List String}
    {x : String} (h : x ∈ identifyDescriptionColumns df excl) : x ∉ excl := by
  rcases List.mem_filterMap.mp h with ⟨c, _, he⟩
  by_cases hm : c.name ∈ excl
  · rw [if_pos hm] at he
    cases he
  · rw [if_neg hm] at he
    by_cases hb : optGtQ (nonNullMean df c) (mkRat 2 5) = true
    · rw [if_pos hb] at he
      cases he
      exact hm
    · rw [if_neg hb] at he
      cases he

theorem mem_identifyDescription_name {df : Df} {excl : List String}
    {x : String} (h : x ∈ identifyDescriptionColumns df excl) :
    x ∈ df.cols.map Col.name := by
  rcases List.mem_filterMap.mp h with ⟨c, hc, he⟩
  by_cases hm : c.name ∈ excl
  · rw [if_pos hm] at he
    cases he
  · rw [if_neg hm] at he
    by_cases hb : optGtQ (nonNullMean df c) (mkRat 2 5) = true
    · rw [if_pos hb] at he
      cases he
      exact List.mem_map.mpr ⟨c, hc, rfl⟩
    · rw [if_neg hb] at he
      cases he

theorem mem_identifyMetric_not_excl {df : Df} {excl : List String}
    {x : String} (h : x ∈ identifyMetricColumns df excl) : x ∉ excl := by
  rcases List.mem_filterMap.mp h with ⟨c, _, he⟩
  by_cases hm : c.name ∈ excl
  · rw [if_pos hm] at he
    cases he
  · rw [if_neg hm] at he
    by_cases hb : c.dtype.isNumeric = true
    · rw [if_pos hb] at he
      cases he
      exact hm
    · rw [if_neg hb] at he
      cases he

theorem perm_of_nodup_mem {l1 l2 : List String} (h1 : l1.Nodup) (h2 : l2.Nodup)
    (h : ∀ a, a ∈ l1 ↔ a ∈ l2) : l1.Perm l2 :=
  (List.perm_ext_iff_of_nodup h1 h2).mpr h

theorem mkRat_natCast (a b : Nat) : mkRat (a : Int) b = (a : ℚ) / (b : ℚ) := by
  rw [Rat.mkRat_eq_div]
  push_cast
  ring

theorem mkRat_two_five : mkRat 2 5 = (2 : ℚ) / 5 := by
  rw [Rat.mkRat_eq_div]
  norm_num

theorem mkRat_nine_ten : mkRat 9 10 = (9 : ℚ) / 10 := by
  rw [Rat.mkRat_eq_div]
  norm_num

theorem inferDataTypes_congr (toDT : Cell → Cell) (df : Df)
    {d1 d2 : List String} (h : ∀ a, a ∈ d1 ↔ a ∈ d2) :
    inferDataTypes toDT df d1 = inferDataTypes toDT df d2 := by
  unfold inferDataTypes
  refine congrArg₂ Prod.mk ?_ ?_
  · refine congrArg (fun cs => ({ nrows := df.nrows, cols := cs } : Df)) ?_
    refine List.map_congr_left fun c _ => ?_
    exact if_congr (h c.name) rfl rfl
  · refine List.map_congr_left fun c _ => ?_
    exact congrArg (fun t => (c.name, t)) (if_congr (h c.name) rfl rfl)

theorem identifyMetricColumns_congr (df : Df) {e1 e2 : List String}
    (h : ∀ a, a ∈ e1 ↔ a ∈ e2) :
    identifyMetricColumns df e1 = identifyMetricColumns df e2 := by
  unfold identifyMetricColumns
  refine List.filterMap_congr fun c _ => ?_
  exact if_congr (h c.name) rfl rfl

theorem esm_date_columns (o : Oracles) (df : Df) (nm : String) :
    (extractSheetMetadata o df nm).1.date_columns =
      o.ord (detectRaw o.parses df).1 := rfl

theorem esm_date_formats (o : Oracles) (df : Df) (nm : String) :
    (extractSheetMetadata o df nm).1.date_formats =
      o.ord (detectRaw o.parses df).2 := rfl

theorem esm_data_types (o : Oracles) (df : Df) (nm : String) :
    (extractSheetMetadata o df nm).1.data_types =
      (inferDataTypes o.toDT df (o.ord (detectRaw o.parses df).1)).2 := rfl

theorem esm_null_counts (o : Oracles) (df : Df) (nm : String) :
    (extractSheetMetadata o df nm).1.null_counts =
      nullCountsOf (inferDataTypes o.toDT df (o.ord (detectRaw o.parses df).1)).1 :=
  rfl

theorem esm_metrics (o : Oracles) (df : Df) (nm : String) :
    (extractSheetMetadata o df nm).2 =
      extractMetrics (inferDataTypes o.toDT df (o.ord (detectRaw o.parses df).1)).1
        (identifyIdentifierColumns
          (inferDataTypes o.toDT df (o.ord (detectRaw o.parses df).1)).1)
        (identifyDescriptionColumns
          (inferDataTypes o.toDT df (o.ord (detectRaw o.parses df).1)).1
          (identifyIdentifierColumns
            (inferDataTypes o.toDT df (o.ord (detectRaw o.parses df).1)).1)) := rfl

theorem colCells_length {df : Df} (hwf : df.wf) {name : String}
    (h : name ∈ df.cols.map Col.name) : (colCells df name).length = df.nrows := by
  rcases List.mem_map.mp h with ⟨c, hc, rfl⟩
  cases hfind : df.cols.find? (fun x => x.name = c.name) with
  | none =>
    rw [List.find?_eq_none] at hfind
    exact absurd (by simp) (hfind c hc)
  | some c2 =>
    have hc2 : c2 ∈ df.cols := List.mem_of_find?_eq_some hfind
    rw [colCells, hfind]
    exact hwf c2 hc2

theorem mem_columnsToTry_names {df : Df} {idCols descCols : List String}
    (hid : ∀ x ∈ idCols, x ∈ df.cols.map Col.name)
    (hdesc : ∀ x ∈ descCols, x ∈ df.cols.map Col.name)
    {p : String × String} (hp : p ∈ columnsToTry df idCols descCols) :
    p.1 ∈ df.cols.map Col.name ∧ p.2 ∈ df.cols.map Col.name := by
  rw [columnsToTry, List.mem_append] at hp
  rcases hp with hp | hp
  · cases hcols : df.cols with
    | nil =>
      rw [positionalPair, hcols] at hp
      cases hp
    | cons c0 tl =>
      cases tl with
      | nil =>
        rw [positionalPair, hcols] at hp
        cases hp
      | cons c1 tl2 =>
        rw [positionalPair, hcols] at hp
        rcases List.mem_singleton.mp hp with rfl
        constructor
        · exact List.mem_map.mpr ⟨c0, by simp [hcols], rfl⟩
        · exact List.mem_map.mpr ⟨c1, by simp [hcols], rfl⟩
  · rcases List.mem_flatMap.mp hp with ⟨i, hi, hmem⟩
    rcases List.mem_map.mp hmem with ⟨d, hd, rfl⟩
    exact ⟨hid i hi, hdesc d hd⟩

/-! ### Claim theorems -/

/-- C1.  Every column the role classifier places in the identifier set has
non-null ratio (fraction of rows with a present value) strictly above 0.4
and uniqueness ratio (distinct non-null values over total rows, 0 for a
zero-row table) strictly below 0.9, with no condition on the column's data
type.  (For a zero-row table `notnull().mean()` is `NaN`, the guard is
false, and the identifier set is empty, so the statement holds vacuously.) -/
theorem c1IdentifierRatios (df : Df) (nm : String)
    (h : nm ∈ identifyIdentifierColumns df) :
    ∃ c ∈ df.cols, c.name = nm ∧
      (2 / 5 : ℚ) < (nonNullCount c : ℚ) / (df.nrows : ℚ) ∧
      uniquenessRatio df c < 9 / 10 := by
  rcases mem_identifyIdentifier h with ⟨c, hc, hn, hb⟩
  rw [isIdentifierCol, Bool.and_eq_true] at hb
  obtain ⟨hb1, hb2⟩ := hb
  have h9 : uniquenessRatio df c < 9 / 10 := by
    have := of_decide_eq_true hb2
    rwa [mkRat_nine_ten] at this
  refine ⟨c, hc, hn, ?_, h9⟩
  rw [nonNullMean] at hb1
  by_cases hr : 0 < df.nrows
  · rw [if_pos hr] at hb1
    have h2 : mkRat 2 5 < mkRat (nonNullCount c) df.nrows :=
      of_decide_eq_true hb1
    rwa [mkRat_two_five, mkRat_natCast] at h2
  · rw [if_neg hr] at hb1
    cases hb1

/-- C1 witness: in `dfW` (two rows, one Code column with a repeated value)
the Code column classifies as identifier and satisfies both bounds. -/
theorem c1Witness :
    "Code" ∈ identifyIdentifierColumns dfW ∧
      ∃ c ∈ dfW.cols, c.name = "Code" ∧
        (2 / 5 : ℚ) < (nonNullCount c : ℚ) / (dfW.nrows : ℚ) ∧
        uniquenessRatio dfW c < 9 / 10 :=
  ⟨by decide, c1IdentifierRatios dfW "Code" (by decide)⟩

/-- C2.  Metric-mapping extraction equals the greedy first-match policy over
the candidate list made of the positional (first, second) pair — present
whenever the table has at least two columns, regardless of roles — followed
by every (identifier, description) pair, identifiers enumerated in the outer
loop: the first candidate whose own mapping is non-empty supplies the
result, later candidates are never considered, and the result is empty when
no candidate yields anything. -/
theorem c2ExtractMetricsGreedy (df : Df) (idCols descCols : List String) :
    extractMetrics df idCols descCols =
      firstNonEmptyMapping df
        (positionalPair df ++
          idCols.flatMap (fun i => descCols.map (fun d => (i, d)))) :=
  tryPairs_nil_eq df _

/-- C3.  The identifier, description and metric column sets produced by the
role classifier (descriptions drawn from columns not classified identifier,
metrics from columns not classified identifier or description and not
flagged as date columns) are pairwise disjoint. -/
theorem c3RoleSetsDisjoint (df : Df) (dateCols : List String) :
    (∀ x ∈ identifyIdentifierColumns df,
      x ∉ identifyDescriptionColumns df (identifyIdentifierColumns df)) ∧
    (∀ x ∈ identifyIdentifierColumns df,
      x ∉ identifyMetricColumns df
        (identifyIdentifierColumns df ++
          identifyDescriptionColumns df (identifyIdentifierColumns df) ++
          dateCols)) ∧
    (∀ x ∈ identifyDescriptionColumns df (identifyIdentifierColumns df),
      x ∉ identifyMetricColumns df
        (identifyIdentifierColumns df ++
          identifyDescriptionColumns df (identifyIdentifierColumns df) ++
          dateCols)) := by
  refine ⟨fun x hx hd => ?_, fun x hx hm => ?_, fun x hx hm => ?_⟩
  · exact mem_identifyDescription_not_excl hd hx
  · exact mem_identifyMetric_not_excl hm
      (List.mem_append.mpr (Or.inl (List.mem_append.mpr (Or.inl hx))))
  · exact mem_identifyMetric_not_excl hm
      (List.mem_append.mpr (Or.inl (List.mem_append.mpr (Or.inr hx))))

/-- C8.  Whatever the parse oracle and however the Python set materialises,
the date-columns list contains each column name at most once, even when a
column is marked date-like by more than one detection path. -/
theorem c8DateColumnsNodup (parses : String → String → Bool)
    (ord : List String → List String) (h : admissibleOrd ord) (df : Df) :
    (detectDateColumns parses ord df).1.Nodup :=
  (h (detectRaw parses df).1).1

/-- C8 witness: in `df8` the single column `date` is marked by both the
label-parse path and the label-name path (the raw list holds it twice), and
the final list still has no duplicate. -/
theorem c8Witness :
    (detectRaw parsesAll df8).1 = ["date", "date"] ∧
      (detectDateColumns parsesAll dedupOrd df8).1.Nodup :=
  ⟨by decide, c8DateColumnsNodup parsesAll dedupOrd dedupOrdAdmissible df8⟩

/-- C9.  After the column sanitizer runs, every surviving column label is a
whitespace-trimmed string and none starts with the placeholder text
`Unnamed`; the dtype and row data of every surviving column are those of a
column of the original table; the row count is untouched; and the resulting
column set — empty included — is propagated into the sheet profile rather
than treated as an error. -/
theorem c9Sanitizer (df : Df) :
    (∀ c ∈ (sanitizeColumns df).cols,
      pyStrip c.name = c.name ∧ pyStartsWith c.name "Unnamed" = false ∧
      (c.dtype, c.cells) ∈ df.cols.map (fun c0 => (c0.dtype, c0.cells))) ∧
    (sanitizeColumns df).nrows = df.nrows ∧
    (∀ o : Oracles, ∀ nm : String,
      (extractSheetMetadata o (sanitizeColumns df) nm).1.columns =
        (sanitizeColumns df).cols.map Col.name) := by
  refine ⟨fun c hc => ?_, rfl, fun o nm => rfl⟩
  rw [sanitizeColumns] at hc
  simp only [List.mem_filter, List.mem_map] at hc
  obtain ⟨⟨c0, hc0, hce⟩, hflt⟩ := hc
  refine ⟨?_, ?_, ?_⟩
  · rw [← hce]
    exact pyStrip_idem _
  · rw [Bool.not_eq_true'] at hflt
    exact hflt
  · rw [← hce]
    exact List.mem_map.mpr ⟨c0, hc0, rfl⟩

/-- C7.  When the path holds no readable workbook — the file is absent (the
explicit existence check) or unreadable (the propagated read failure) — the
processing call fails immediately with a raised error: no profile document
is written and no result object is produced (the error carries neither). -/
theorem c7MissingFileFails (o : Oracles) (fs : String → FileState) (p : String)
    (h : fs p = FileState.absent ∨ fs p = FileState.unreadable) :
    ∃ e, processSpreadsheet o fs p = Except.error e := by
  rcases h with h | h
  · exact ⟨PErr.notFound p, by rw [processSpreadsheet, h]⟩
  · exact ⟨PErr.readFailed p, by rw [processSpreadsheet, h]⟩

/-- C7 witness: on an empty filesystem the call fails. -/
theorem c7Witness :
    (fsEmpty "missing.xlsx" = FileState.absent ∨
      fsEmpty "missing.xlsx" = FileState.unreadable) ∧
    ∃ e, processSpreadsheet oC fsEmpty "missing.xlsx" = Except.error e :=
  ⟨Or.inl rfl, c7MissingFileFails oC fsEmpty "missing.xlsx" (Or.inl rfl)⟩

/-- C10.  Both candidate columns are converted to text before the overlap
check, so in a well-formed table every row — missing cells yield the literal
text "nan" — counts as non-null: the overlap count equals the row count, a
table with at least one row never skips a candidate pair for lack of
overlapping data, and the mask drops no row (missing values are excluded
from the mapping only by the trim-to-empty and lowercase-"nan" guards of
`buildRows`). -/
theorem c10EveryRowCountsNonNull (df : Df) (hwf : df.wf) (hr : 1 ≤ df.nrows) :
    ∀ p ∈ columnsToTry df (identifyIdentifierColumns df)
        (identifyDescriptionColumns df (identifyIdentifierColumns df)),
      combinedNonNullCount (seriesStr df p.1) (seriesStr df p.2) = df.nrows ∧
      ¬(combinedNonNullCount (seriesStr df p.1) (seriesStr df p.2) = 0) ∧
      maskedRows (seriesStr df p.1) (seriesStr df p.2) =
        (seriesStr df p.1).zip (seriesStr df p.2) := by
  intro p hp
  obtain ⟨h1, h2⟩ := mem_columnsToTry_names
    (fun x hx => mem_identifyIdentifier_name hx)
    (fun x hx => mem_identifyDescription_name hx) hp
  have l1 : (seriesStr df p.1).length = df.nrows := by
    rw [seriesStr, List.length_map]
    exact colCells_length hwf h1
  have l2 : (seriesStr df p.2).length = df.nrows := by
    rw [seriesStr, List.length_map]
    exact colCells_length hwf h2
  have hc : combinedNonNullCount (seriesStr df p.1) (seriesStr df p.2) = df.nrows := by
    rw [combinedNonNullCount_eq_length, List.length_zip, l1, l2, min_self]
  refine ⟨hc, ?_, maskedRows_eq_zip _ _⟩
  rw [hc]
  omega

theorem dfCL_wf : dfCL.wf := by
  unfold Df.wf
  decide

/-- C10 witness: the two-row Code/Label sheet is well-formed, has a row, and
its single candidate pair is not skipped. -/
theorem c10Witness :
    dfCL.wf ∧ 1 ≤ dfCL.nrows ∧
    (∀ p ∈ columnsToTry dfCL (identifyIdentifierColumns dfCL)
        (identifyDescriptionColumns dfCL (identifyIdentifierColumns dfCL)),
      combinedNonNullCount (seriesStr dfCL p.1) (seriesStr dfCL p.2) = dfCL.nrows ∧
      ¬(combinedNonNullCount (seriesStr dfCL p.1) (seriesStr dfCL p.2) = 0) ∧
      maskedRows (seriesStr dfCL p.1) (seriesStr dfCL p.2) =
        (seriesStr dfCL p.1).zip (seriesStr dfCL p.2)) :=
  ⟨dfCL_wf, by decide, c10EveryRowCountsNonNull dfCL dfCL_wf (by decide)⟩

/-- C4 counterexample.  Two runs that differ only in the Python set
materialisation order (two admissible orders, as two process hash seeds give)
produce different outputs on the same unmodified input: on `df4` — whose two
columns `Date` and `Year` are put into the date set by the label-name path,
with no parsing involved, so the oracle `parsesNone` matches the real parser
on every string the run queries — the date-column list of sheet S comes out
`["Date", "Year"]` in one run and `["Year", "Date"]` in the other, so the
outputs are not identical as the claim states. -/
theorem c4Counterexample :
    oA.parses = oB.parses ∧ oA.toDT = oB.toDT ∧
    admissibleOrd oA.ord ∧ admissibleOrd oB.ord ∧
    respDateColumns (processSpreadsheet oA fs4 "wb.xlsx") "S" =
      some ["Date", "Year"] ∧
    respDateColumns (processSpreadsheet oB fs4 "wb.xlsx") "S" =
      some ["Year", "Date"] ∧
    processSpreadsheet oA fs4 "wb.xlsx" ≠ processSpreadsheet oB fs4 "wb.xlsx" := by
  have e1 : respDateColumns (processSpreadsheet oA fs4 "wb.xlsx") "S" =
      some ["Date", "Year"] := by decide
  have e2 : respDateColumns (processSpreadsheet oB fs4 "wb.xlsx") "S" =
      some ["Year", "Date"] := by decide
  refine ⟨rfl, rfl, dedupOrdAdmissible, revDedupOrdAdmissible, e1, e2, ?_⟩
  intro h
  have h2 : respDateColumns (processSpreadsheet oA fs4 "wb.xlsx") "S" =
      respDateColumns (processSpreadsheet oB fs4 "wb.xlsx") "S" := by rw [h]
  rw [e1, e2] at h2
  exact absurd h2 (by decide)

/-- C4 amended.  The pipeline is deterministic up to the materialisation
order of its Python sets: two runs on the same unmodified input that agree
on the parse and coercion oracles (the libraries are deterministic within a
process) produce identical metric dictionaries and identical name, column
list, row and column counts, type map, headers flag and null counts, while
the per-sheet date-column list, the per-sheet date-format list and the
global date-format list are permutations of each other — the same elements,
not necessarily in the same order. -/
theorem c4AmendedDeterminism (o1 o2 : Oracles)
    (hp : o1.parses = o2.parses) (ht : o1.toDT = o2.toDT)
    (h1 : admissibleOrd o1.ord) (h2 : admissibleOrd o2.ord)
    (df : Df) (nm : String) (sheets : List (String × Df)) :
    (extractSheetMetadata o1 df nm).2 = (extractSheetMetadata o2 df nm).2 ∧
    (extractSheetMetadata o1 df nm).1.name =
      (extractSheetMetadata o2 df nm).1.name ∧
    (extractSheetMetadata o1 df nm).1.columns =
      (extractSheetMetadata o2 df nm).1.columns ∧
    (extractSheetMetadata o1 df nm).1.row_count =
      (extractSheetMetadata o2 df nm).1.row_count ∧
    (extractSheetMetadata o1 df nm).1.column_count =
      (extractSheetMetadata o2 df nm).1.column_count ∧
    (extractSheetMetadata o1 df nm).1.data_types =
      (extractSheetMetadata o2 df nm).1.data_types ∧
    (extractSheetMetadata o1 df nm).1.has_headers =
      (extractSheetMetadata o2 df nm).1.has_headers ∧
    (extractSheetMetadata o1 df nm).1.null_counts =
      (extractSheetMetadata o2 df nm).1.null_counts ∧
    (extractSheetMetadata o1 df nm).1.date_columns.Perm
      (extractSheetMetadata o2 df nm).1.date_columns ∧
    (extractSheetMetadata o1 df nm).1.date_formats.Perm
      (extractSheetMetadata o2 df nm).1.date_formats ∧
    (globalDateFormats o1 sheets).Perm (globalDateFormats o2 sheets) := by
  have hraw : ∀ d : Df, detectRaw o2.parses d = detectRaw o1.parses d := by
    intro d
    rw [hp]
  have hmem : ∀ d : Df, ∀ a : String,
      a ∈ o1.ord (detectRaw o1.parses d).1 ↔
        a ∈ o2.ord (detectRaw o2.parses d).1 := by
    intro d a
    rw [hraw d]
    exact ((h1 (detectRaw o1.parses d).1).2 a).trans
      ((h2 (detectRaw o1.parses d).1).2 a).symm
  have hinf : ∀ d : Df,
      inferDataTypes o1.toDT d (o1.ord (detectRaw o1.parses d).1) =
        inferDataTypes o2.toDT d (o2.ord (detectRaw o2.parses d).1) := by
    intro d
    rw [ht]
    exact inferDataTypes_congr o2.toDT d (hmem d)
  have hfmem : ∀ d : Df, ∀ a : String,
      a ∈ o1.ord (detectRaw o1.parses d).2 ↔
        a ∈ o2.ord (detectRaw o2.parses d).2 := by
    intro d a
    rw [hraw d]
    exact ((h1 (detectRaw o1.parses d).2).2 a).trans
      ((h2 (detectRaw o1.parses d).2).2 a).symm
  refine ⟨?_, rfl, rfl, rfl, rfl, ?_, rfl, ?_, ?_, ?_, ?_⟩
  · rw [esm_metrics o1 df nm, esm_metrics o2 df nm, hinf df]
  · rw [esm_data_types o1 df nm, esm_data_types o2 df nm, hinf df]
  · rw [esm_null_counts o1 df nm, esm_null_counts o2 df nm, hinf df]
  · rw [esm_date_columns o1 df nm, esm_date_columns o2 df nm]
    exact perm_of_nodup_mem (h1 (detectRaw o1.parses df).1).1
      (h2 (detectRaw o2.parses df).1).1 (hmem df)
  · rw [esm_date_formats o1 df nm, esm_date_formats o2 df nm]
    exact perm_of_nodup_mem (h1 (detectRaw o1.parses df).2).1
      (h2 (detectRaw o2.parses df).2).1 (hfmem df)
  · rw [globalDateFormats, globalDateFormats]
    have hLmem : ∀ a : String,
        a ∈ (sheets.map (fun s =>
          (extractSheetMetadata o1 (sanitizeColumns s.2) s.1).1.date_formats)).flatten ↔
        a ∈ (sheets.map (fun s =>
          (extractSheetMetadata o2 (sanitizeColumns s.2) s.1).1.date_formats)).flatten := by
      intro a
      simp only [List.mem_flatten, List.mem_map]
      constructor
      · rintro ⟨l, ⟨s, hs, rfl⟩, ha⟩
        refine ⟨_, ⟨s, hs, rfl⟩, ?_⟩
        rw [esm_date_formats] at ha ⊢
        exact (hfmem (sanitizeColumns s.2) a).mp ha
      · rintro ⟨l, ⟨s, hs, rfl⟩, ha⟩
        refine ⟨_, ⟨s, hs, rfl⟩, ?_⟩
        rw [esm_date_formats] at ha ⊢
        exact (hfmem (sanitizeColumns s.2) a).mpr ha
    refine perm_of_nodup_mem (h1 _).1 (h2 _).1 (fun a => ?_)
    exact ((h1 _).2 a).trans ((hLmem a).trans ((h2 _).2 a).symm)

/-- C4 amended witness: the amended statement at the two concrete runs on
the concrete workbook. -/
theorem c4AmendedWitness :
    (extractSheetMetadata oA df4 "S").2 = (extractSheetMetadata oB df4 "S").2 ∧
    (extractSheetMetadata oA df4 "S").1.name =
      (extractSheetMetadata oB df4 "S").1.name ∧
    (extractSheetMetadata oA df4 "S").1.columns =
      (extractSheetMetadata oB df4 "S").1.columns ∧
    (extractSheetMetadata oA df4 "S").1.row_count =
      (extractSheetMetadata oB df4 "S").1.row_count ∧
    (extractSheetMetadata oA df4 "S").1.column_count =
      (extractSheetMetadata oB df4 "S").1.column_count ∧
    (extractSheetMetadata oA df4 "S").1.data_types =
      (extractSheetMetadata oB df4 "S").1.data_types ∧
    (extractSheetMetadata oA df4 "S").1.has_headers =
      (extractSheetMetadata oB df4 "S").1.has_headers ∧
    (extractSheetMetadata oA df4 "S").1.null_counts =
      (extractSheetMetadata oB df4 "S").1.null_counts ∧
    (extractSheetMetadata oA df4 "S").1.date_columns.Perm
      (extractSheetMetadata oB df4 "S").1.date_columns ∧
    (extractSheetMetadata oA df4 "S").1.date_formats.Perm
      (extractSheetMetadata oB df4 "S").1.date_formats ∧
    (globalDateFormats oA [("S", df4)]).Perm (globalDateFormats oB [("S", df4)]) :=
  c4AmendedDeterminism oA oB rfl rfl dedupOrdAdmissible revDedupOrdAdmissible
    df4 "S" [("S", df4)]

/-- C5 (code bug).  On the Code/Label workbook the persisted profile's sheet
entry carries exactly the nine `SheetInfo` schema fields — the identifier,
description and metric column lists the call site passes are silently
dropped, because the pydantic schema declares no such fields and ignores
unknown keyword arguments: two constructions differing only in the role
lists yield the same `SheetInfo`. -/
theorem c5ProfileOmitsRoleLists :
    sheetEntryKeys (processSpreadsheet oC fsCL "book.xlsx") "S" =
      some ["name", "columns", "row_count", "column_count", "data_types",
        "has_headers", "date_columns", "null_counts", "date_formats"] ∧
    mkSheetInfo "S" [] 0 0 [] true [] [] [] ["i"] ["d"] ["m"] =
      mkSheetInfo "S" [] 0 0 [] true [] [] [] [] [] [] :=
  ⟨by decide, rfl⟩

/-- C6 (code bug).  The in-memory result of a successful run exposes the
sheet-metadata map, the empty processed-data payload and the source file
path, but not the derived profile-document path: the pydantic response
schema declares no `config_path` field, so the argument the call site passes
is silently dropped and two constructions differing only in it coincide. -/
theorem c6ResponseOmitsConfigPath :
    respFieldNames (processSpreadsheet oC fsCL "book.xlsx") =
      some ["sheets_metadata", "processed_data", "file_path"] ∧
    respFilePath (processSpreadsheet oC fsCL "book.xlsx") = some "book.xlsx" ∧
    mkSpreadsheetProcessingResponse [] [] "f.xlsx" "a.yaml" =
      mkSpreadsheetProcessingResponse [] [] "f.xlsx" "b.yaml" :=
  ⟨rfl, rfl, rfl⟩

end SpreadsheetAgent
